import Mathlib

/-!
Verification of the movie-dubbing-pipeline HTTP services.

The repository (src/python) exposes five FastAPI request handlers
(transcription, translation, emotion detection, TTS, lip-sync).  Each handler
reads module-global model state, validates its request, invokes an external
model or tool, and maps failures to HTTP errors.  We embed each handler as a
pure Lean function over

  * its module globals (the `*_model` / `*_tokenizer` variables),
  * an abstract filesystem (the set of existing paths),
  * an environment supplying the outcomes of external calls
    (model loading, model inference, ffmpeg, tempfile naming),

returning an HTTP-level result, the updated globals and filesystem, and a
trace of the external calls the handler made.  Floating-point values that the
handlers merely shuttle through (timestamps, durations, confidences) are
carried as opaque integers supplied by the environment; no claim depends on
float arithmetic, and `round(x, n)` is applied to values the environment
already provides in reduced form.
-/

namespace Dubbing

/-- Outcome of a Python call that may raise: either a value or an exception
message (`str(e)`). -/
abbrev PyResult (α : Type) := Except String α

/-- HTTP-level outcome of one request handler invocation.
`httpError s d` is `HTTPException(status_code := s, detail := d)`;
`uncaught m` is an exception that escapes the handler body uncaught (FastAPI
then produces a generic 500 response whose detail is NOT the message). -/
inductive HandlerResult (α : Type) where
  | ok : α → HandlerResult α
  | httpError : Nat → String → HandlerResult α
  | uncaught : String → HandlerResult α
deriving DecidableEq, Repr

/-- The filesystem as the list of paths that currently exist. -/
def FileSystem := List String
deriving DecidableEq, Repr

def FileSystem.existsPath (fs : FileSystem) (p : String) : Bool :=
  List.contains fs p

def FileSystem.create (fs : FileSystem) (p : String) : FileSystem :=
  p :: fs

def FileSystem.remove (fs : FileSystem) (p : String) : FileSystem :=
  List.erase fs p

/-- External calls a handler can make.  Model inference is distinguished from
model loading; `wav2lipInfer` exists so we can state that `sync_lips` never
performs it. -/
inductive Effect where
  | loadModel (name : String)
  | whisperTranscribe (path language : String) (word_timestamps : Bool) (task : String)
  | nllbGenerate (forced_bos_token_id : Nat) (max_length : Nat) (num_beams : Nat)
      (early_stopping : Bool)
  | emotionInfer (text : String)
  | ttsToFile (text speaker_wav language file_path : String)
  | wav2lipInfer (video_path audio_path : String)
  | ffmpegRun (args : List String)
deriving DecidableEq, Repr

/-- Is an effect a model-inference call (as opposed to loading or a media
tool)?  Used to state "no model inference is attempted". -/
def Effect.isInference : Effect → Bool
  | .whisperTranscribe _ _ _ _ => true
  | .nllbGenerate _ _ _ _ => true
  | .emotionInfer _ => true
  | .ttsToFile _ _ _ _ => true
  | .wav2lipInfer _ _ => true
  | _ => false

/-- Result of running one handler: HTTP-level result, globals after the call,
filesystem after the call, and the trace of external calls made. -/
structure Outcome (σ α : Type) where
  result : HandlerResult α
  globals : σ
  fs : FileSystem
  trace : List Effect
deriving DecidableEq, Repr

/-- `str.startswith`, computed on the character lists so it reduces. -/
def strStartsWith (s pre : String) : Bool :=
  pre.data.isPrefixOf s.data

/-- `str.endswith`, computed on the character lists so it reduces. -/
def strEndsWith (s post : String) : Bool :=
  post.data.reverse.isPrefixOf s.data.reverse

/-- `os.path.join(a, b)` for a single join on POSIX. -/
def joinPath (a b : String) : String :=
  if strStartsWith b "/" then b
  else if a = "" then b
  else if strEndsWith a "/" then a ++ b
  else a ++ "/" ++ b

/-- Index one past the last `/` in the character list (0 when there is no
slash): the split point `os.path.dirname` uses. -/
def sepIndex : List Char → Nat
  | [] => 0
  | c :: rest =>
    let r := sepIndex rest
    if r > 0 then r + 1 else if c = '/' then 1 else 0

/-- `os.path.dirname` on POSIX: the part of the path before its last `/`,
with trailing slashes stripped unless the head is all slashes. -/
def dirname (p : String) : String :=
  let cs := p.data
  let head := cs.take (sepIndex cs)
  if head ≠ [] ∧ head.any (· ≠ '/') then
    String.mk (List.reverse ((List.reverse head).dropWhile (· = '/')))
  else
    String.mk head

/-- `os.makedirs(dir, exist_ok=True)` guarded as the handlers do:
`if output_dir and not os.path.exists(output_dir)`. -/
def makeOutputDir (fs : FileSystem) (output_path : String) : FileSystem :=
  let output_dir := dirname output_path
  if output_dir ≠ "" ∧ ¬ fs.existsPath output_dir then fs.create output_dir else fs

end Dubbing

/-! ## Lip-sync service (src/python/services/lipsync.py) -/

namespace Dubbing

/-- Request body of `POST /lipsync` (`LipSyncRequest`). -/
structure LipSyncRequest where
  video_path : String
  audio_path : String
  output_path : String
deriving DecidableEq, Repr

/-- Module globals of `services/lipsync.py`: `lipsync_model` (never assigned
by any code in the module after its `None` initializer) and `lipsync_device`. -/
structure LipsyncGlobals where
  lipsync_model : Option Bool
  lipsync_device : Option String
deriving DecidableEq, Repr

/-- Module-initial lip-sync globals (`lipsync_model = None`,
`lipsync_device = None`). -/
def LipsyncGlobals.init : LipsyncGlobals := ⟨none, none⟩

/-- `load_lipsync_model(model_dir)`: returns `None` when the checkpoint file
is missing, otherwise records the device and returns `True` as a placeholder.
It declares `global lipsync_model` but never assigns it. -/
def load_lipsync_model (g : LipsyncGlobals) (model_dir : String) (fs : FileSystem)
    (cuda_available : Bool) : Option Bool × LipsyncGlobals :=
  let checkpoint_path := joinPath model_dir "wav2lip_gan.pth"
  if ¬ fs.existsPath checkpoint_path then
    (none, g)
  else
    (some true, { g with lipsync_device := some (if cuda_available then "cuda" else "cpu") })

/-- Environment for one `sync_lips` call: what `subprocess.run(["ffmpeg", ...])`
does (its return code, its stderr, and whether it left the output file on
disk). -/
structure FfmpegEnv where
  returncode : Int
  stderr : String
  createsOutput : Bool
deriving DecidableEq, Repr

/-- The exact argument list `sync_lips` passes to `subprocess.run`. -/
def ffmpegCmd (req : LipSyncRequest) : List String :=
  ["ffmpeg",
   "-i", req.video_path,
   "-i", req.audio_path,
   "-c:v", "copy",
   "-c:a", "aac",
   "-map", "0:v:0",
   "-map", "1:a:0",
   "-shortest",
   "-y",
   req.output_path]

/-- `sync_lips(request)`: 503 when `lipsync_model` is `None`; 400 for a
missing video or audio file; otherwise create the output directory, run
ffmpeg to copy the video stream and replace the audio track, and map ffmpeg
failure or a missing output file to 500. -/
def sync_lips (g : LipsyncGlobals) (req : LipSyncRequest) (fs : FileSystem)
    (env : FfmpegEnv) : Outcome LipsyncGlobals (Bool × String × String) :=
  if g.lipsync_model = none then
    { result := .httpError 503 "Wav2Lip model not loaded. Please download the model first.",
      globals := g, fs := fs, trace := [] }
  else if ¬ fs.existsPath req.video_path then
    { result := .httpError 400 ("Video file not found: " ++ req.video_path),
      globals := g, fs := fs, trace := [] }
  else if ¬ fs.existsPath req.audio_path then
    { result := .httpError 400 ("Audio file not found: " ++ req.audio_path),
      globals := g, fs := fs, trace := [] }
  else
    let fs₁ := makeOutputDir fs req.output_path
    let fs₂ := if env.createsOutput then fs₁.create req.output_path else fs₁
    if env.returncode ≠ 0 then
      { result := .httpError 500 ("FFmpeg failed: " ++ env.stderr),
        globals := g, fs := fs₂, trace := [.ffmpegRun (ffmpegCmd req)] }
    else if ¬ fs₂.existsPath req.output_path then
      { result := .httpError 500 "Failed to generate output video",
        globals := g, fs := fs₂, trace := [.ffmpegRun (ffmpegCmd req)] }
    else
      { result := .ok (true, req.output_path,
          "Basic audio replacement applied. Full Wav2Lip requires additional setup."),
        globals := g, fs := fs₂, trace := [.ffmpegRun (ffmpegCmd req)] }

end Dubbing

/-! ## Transcription service (src/python/services/transcribe.py) -/

namespace Dubbing

/-- Module globals of `services/transcribe.py`: the `whisper_model` global
(an opaque loaded-model handle). -/
structure TranscribeGlobals where
  whisper_model : Option Nat
deriving DecidableEq, Repr

/-- The multipart upload: FastAPI's `UploadFile.filename` may be `None` or a
string; `if not file.filename` fires on both `None` and `""`. -/
structure Upload where
  filename : Option String
deriving DecidableEq, Repr

def filenameFalsy : Option String → Bool
  | none => true
  | some s => s = ""

/-- A word entry of a Whisper segment.  Timestamps are Python floats the
handler only rounds and forwards; they are carried as opaque integers. -/
structure TWord where
  word : String
  start : Int
  stop : Int
deriving DecidableEq, Repr

/-- A segment of the Whisper result; `words` is absent when the key
`"words"` is missing from the segment dict. -/
structure TSeg where
  start : Int
  stop : Int
  text : String
  words : Option (List TWord)
deriving DecidableEq, Repr

/-- The dict returned by `whisper_model.transcribe`. -/
structure WhisperResult where
  segments : List TSeg
  language : Option String
deriving DecidableEq, Repr

structure ShapedWord where
  word : String
  start : Int
  stop : Int
deriving DecidableEq, Repr

structure ShapedSeg where
  id : Nat
  start : Int
  stop : Int
  text : String
  words : List ShapedWord
deriving DecidableEq, Repr

/-- Response body of a successful transcription.  `processing_time` is a
wall-clock float, carried opaquely. -/
structure TranscribeResponse where
  segments : List ShapedSeg
  language : String
  processing_time : Int
deriving DecidableEq, Repr

/-- Per-word shaping: `{"word": w["word"], "start": round(...), "end": round(...)}`
(rounding of the opaque float carried through). -/
def shapeWord (w : TWord) : ShapedWord :=
  { word := w.word, start := w.start, stop := w.stop }

/-- Per-segment shaping done in the handler's loop: enumerate id, strip the
text, and map the words (empty when `"words"` is absent). -/
def shapeSeg (i : Nat) (s : TSeg) : ShapedSeg :=
  { id := i, start := s.start, stop := s.stop, text := s.text.trim,
    words := match s.words with
      | some ws => ws.map shapeWord
      | none => [] }

def shapeSegments (ss : List TSeg) : List ShapedSeg :=
  ss.enum.map fun p => shapeSeg p.1 p.2

/-- Environment for one `transcribe_audio` call: the name
`tempfile.NamedTemporaryFile` picks (fresh in practice), the outcome of
`whisper_model.transcribe`, and the measured processing time. -/
structure TranscribeEnv where
  temp_path : String
  transcribeOutcome : PyResult WhisperResult
  processing_time : Int

/-- `transcribe_audio(file)`: 503 when the model is not loaded, 400 on a
falsy filename, otherwise write the upload to a temp file, transcribe it with
`language="en"`, `word_timestamps=True`, `task="transcribe"`, map any
exception to a 500 echoing its message, and in all cases delete the temp file
in the `finally` block before returning (`os.remove` failures are swallowed;
we model the removal as effective). -/
def transcribe_audio (g : TranscribeGlobals) (file : Upload) (fs : FileSystem)
    (env : TranscribeEnv) : Outcome TranscribeGlobals TranscribeResponse :=
  if g.whisper_model = none then
    { result := .httpError 503 "Whisper model not loaded", globals := g, fs := fs, trace := [] }
  else if filenameFalsy file.filename then
    { result := .httpError 400 "No filename provided", globals := g, fs := fs, trace := [] }
  else
    let fs₁ := fs.create env.temp_path
    let call : Effect := .whisperTranscribe env.temp_path "en" true "transcribe"
    let result : HandlerResult TranscribeResponse :=
      match env.transcribeOutcome with
      | .ok r =>
        .ok { segments := shapeSegments r.segments,
              language := r.language.getD "en",
              processing_time := env.processing_time }
      | .error e => .httpError 500 ("Transcription failed: " ++ e)
    let fs₂ := if fs₁.existsPath env.temp_path then fs₁.remove env.temp_path else fs₁
    { result := result, globals := g, fs := fs₂, trace := [call] }

end Dubbing

/-! ## Emotion service (src/python/services/emotion.py) -/

namespace Dubbing

/-- Request body of `POST /emotion` (`EmotionRequest`). -/
structure EmotionRequest where
  text : String
deriving DecidableEq, Repr

/-- Module globals of `services/emotion.py`. -/
structure EmotionGlobals where
  emotion_model : Option Nat
  emotion_tokenizer : Option Nat
deriving DecidableEq, Repr

/-- The reduced model output (top label, confidence, per-label scores).  The
tokenize / softmax / argmax post-processing operates on floating-point
tensors, so the environment supplies the reduced result; an exception raised
anywhere in that region is the `.error` case. -/
structure EmotionOut where
  emotion : String
  confidence : Int
  scores : List (String × Int)
deriving DecidableEq, Repr

/-- Response body of a successful emotion detection. -/
structure EmotionResponse where
  emotion : String
  confidence : Int
  scores : List (String × Int)
  text : String
deriving DecidableEq, Repr

/-- `detect_emotion(request)`: 503 when the model or tokenizer is not loaded;
otherwise run inference on `request.text` and map any exception to a 500
echoing its message.  The handler never touches the filesystem. -/
def detect_emotion (g : EmotionGlobals) (req : EmotionRequest) (fs : FileSystem)
    (inferOutcome : PyResult EmotionOut) : Outcome EmotionGlobals EmotionResponse :=
  if g.emotion_model = none ∨ g.emotion_tokenizer = none then
    { result := .httpError 503 "Emotion model not loaded", globals := g, fs := fs, trace := [] }
  else
    match inferOutcome with
    | .ok out =>
      { result := .ok { emotion := out.emotion, confidence := out.confidence,
                        scores := out.scores, text := req.text },
        globals := g, fs := fs, trace := [.emotionInfer req.text] }
    | .error e =>
      { result := .httpError 500 ("Emotion detection failed: " ++ e),
        globals := g, fs := fs, trace := [.emotionInfer req.text] }

end Dubbing

/-! ## Translation service (src/python/services/translate.py) -/

namespace Dubbing

/-- Request body of `POST /translate` (`TranslationRequest`), with the
pydantic field defaults. -/
structure TranslationRequest where
  text : String
  source_lang : String := "eng_Latn"
  target_lang : String := "uzb_Latn"
  emotion : String := "neutral"
deriving DecidableEq, Repr

/-- The loaded NLLB tokenizer, as the handler observes it: whether
`hasattr(tok, 'lang_code_to_id')`, and the `lang_code_to_id` mapping as an
association list. -/
structure Tokenizer where
  has_lang_code_to_id : Bool
  lang_code_to_id : List (String × Nat)
deriving DecidableEq, Repr

/-- Module globals of `services/translate.py`. -/
structure TranslateGlobals where
  translation_model : Option Nat
  translation_tokenizer : Option Tokenizer
deriving DecidableEq, Repr

/-- Module-initial translate globals (both `None`). -/
def TranslateGlobals.init : TranslateGlobals := ⟨none, none⟩

/-- Outcomes of the two `from_pretrained` calls inside
`load_translation_model` (the tokenizer is loaded first, then the model, so
a model-load failure leaves the tokenizer assigned). -/
structure NllbLoadEnv where
  tokOutcome : PyResult Tokenizer
  modelOutcome : PyResult Nat

/-- `load_translation_model(model_dir, device, force_reload)`: when both
globals are already set and `force_reload` is false, return the loaded model
without touching anything; otherwise load tokenizer then model, assigning
each global as it is obtained, and re-raise any exception.  (The
`os.makedirs(cache_dir)` and device placement inside loading are part of
model loading and not modelled.) -/
def load_translation_model (g : TranslateGlobals) (force_reload : Bool)
    (env : NllbLoadEnv) : PyResult Nat × TranslateGlobals × List Effect :=
  match g.translation_model, g.translation_tokenizer, force_reload with
  | some m, some _, false => (.ok m, g, [])
  | _, _, _ =>
    match env.tokOutcome with
    | .error e => (.error e, g, [.loadModel "nllb-200-distilled-600M"])
    | .ok tok =>
      match env.modelOutcome with
      | .error e =>
        (.error e, { g with translation_tokenizer := some tok },
         [.loadModel "nllb-200-distilled-600M"])
      | .ok m =>
        (.ok m, { translation_model := some m, translation_tokenizer := some tok },
         [.loadModel "nllb-200-distilled-600M"])

/-- The `uzbek_alternatives` dict lookup with default `[target_lang]`. -/
def uzbek_alternatives (target_lang : String) : List String :=
  if target_lang = "uzb_Latn" then ["uzb_Latn", "uzb", "uz_Latn", "uz", "uzb_Latin"]
  else if target_lang = "uzb_Cyrl" then ["uzb_Cyrl", "uz_Cyrl", "uzb_Cyrillic"]
  else [target_lang]

/-- The loop over alternative target codes: first alternative present in
`lang_code_to_id`, together with its token id. -/
def firstAltTarget (tok : Tokenizer) : List String → Option (Nat × String)
  | [] => none
  | c :: rest =>
    match tok.lang_code_to_id.lookup c with
    | some id => some (id, c)
    | none => firstAltTarget tok rest

/-- Target-language resolution in `translate_text`: the requested code if
present, else the first present Uzbek alternative; `none` means the 400
"Unsupported target language" branch. -/
def resolveTargetLang (tok : Tokenizer) (target_lang : String) : Option (Nat × String) :=
  match tok.lang_code_to_id.lookup target_lang with
  | some id => some (id, target_lang)
  | none => firstAltTarget tok (uzbek_alternatives target_lang)

def eng_alternatives : List String := ["eng_Latn", "eng", "en", "en_Latn"]

def firstPresent (tok : Tokenizer) : List String → Option String
  | [] => none
  | c :: rest =>
    if (tok.lang_code_to_id.lookup c).isSome then some c else firstPresent tok rest

/-- Source-language resolution: the requested code if present, else the
first present English alternative; `none` means the 400 "Unsupported source
language" branch. -/
def resolveSourceLang (tok : Tokenizer) (source_lang : String) : Option String :=
  if (tok.lang_code_to_id.lookup source_lang).isSome then some source_lang
  else firstPresent tok eng_alternatives

/-- Python `sub in s` on strings. -/
def strContainsSub (s sub : String) : Bool :=
  (s.splitOn sub).length > 1

def isUzbekCode (code : String) : Bool :=
  strContainsSub code.toLower "uzb" || strStartsWith code.toLower "uz"

def isEnglishCode (code : String) : Bool :=
  strContainsSub code.toLower "eng" || strStartsWith code.toLower "en"

def availableLangs (tok : Tokenizer) : List String :=
  tok.lang_code_to_id.map Prod.fst

/-- Python `repr` of a list of strings, as an f-string renders it. -/
def pyStrListRepr (xs : List String) : String :=
  "[" ++ String.intercalate ", " (xs.map fun s => "\x27" ++ s ++ "\x27") ++ "]"

/-- The 400 detail built when no target-language code resolves. -/
def unsupportedTargetMsg (tok : Tokenizer) (original_target_lang : String) : String :=
  let available_langs := availableLangs tok
  let uzb_codes := (available_langs.filter isUzbekCode).take 10
  let msg₁ := "Unsupported target language: " ++ original_target_lang ++ ".\n"
  let msg₂ := msg₁ ++ (if uzb_codes ≠ [] then
      "Found Uzbek-related codes: " ++ String.intercalate ", " uzb_codes ++ ".\n"
    else "")
  msg₂ ++ "Total available codes: " ++ toString available_langs.length ++
    ". Please check NLLB documentation for correct code format."

/-- The 400 detail built when no source-language code resolves. -/
def unsupportedSourceMsg (tok : Tokenizer) (requested_source : String) : String :=
  let eng_codes := ((availableLangs tok).filter isEnglishCode).take 5
  "Unsupported source language: " ++ requested_source ++
    ". Available English codes: " ++ pyStrListRepr eng_codes

/-- Response body of a successful translation. -/
structure TranslateResponse where
  translated_text : String
  source_lang : String
  target_lang : String
  original_text : String
deriving DecidableEq, Repr

/-- Environment for one `translate_text` call: the lazy-load outcomes and
what `model.generate` + `batch_decode(...)[0]` produce. -/
structure TranslateEnv where
  loadEnv : NllbLoadEnv
  generateOutcome : PyResult String

/-- The body of `translate_text` from the `503` check on (after any lazy
load), threading the trace accumulated so far. -/
def translateBody (g : TranslateGlobals) (req : TranslationRequest) (fs : FileSystem)
    (env : TranslateEnv) (tr : List Effect) : Outcome TranslateGlobals TranslateResponse :=
  match g.translation_model, g.translation_tokenizer with
  | some _, some tok =>
    if tok.has_lang_code_to_id = false then
      { result := .httpError 500
          "Tokenizer missing lang_code_to_id attribute. Model may not be fully loaded.",
        globals := g, fs := fs, trace := tr }
    else
      match resolveTargetLang tok req.target_lang with
      | none =>
        { result := .httpError 400 (unsupportedTargetMsg tok req.target_lang),
          globals := g, fs := fs, trace := tr }
      | some (target_token_id, target_lang) =>
        match resolveSourceLang tok req.source_lang with
        | none =>
          { result := .httpError 400 (unsupportedSourceMsg tok req.source_lang),
            globals := g, fs := fs, trace := tr }
        | some source_lang =>
          let call : Effect := .nllbGenerate target_token_id 200 5 true
          match env.generateOutcome with
          | .ok translated_text =>
            { result := .ok { translated_text := translated_text,
                              source_lang := source_lang, target_lang := target_lang,
                              original_text := req.text },
              globals := g, fs := fs, trace := tr ++ [call] }
          | .error e =>
            { result := .httpError 500 ("Translation failed: " ++ e),
              globals := g, fs := fs, trace := tr ++ [call] }
  | _, _ =>
    { result := .httpError 503 "Translation model not loaded",
      globals := g, fs := fs, trace := tr }

/-- `translate_text(request)`: lazily load the model when either global is
`None` — this call is NOT wrapped in try/except, so a load failure escapes
the handler uncaught — then run the guarded body: 503 if still unloaded,
500 on a tokenizer missing `lang_code_to_id`, 400 on unresolvable language
codes, `generate` with `forced_bos_token_id = target_token_id`,
`max_length=200`, `num_beams=5`, `early_stopping=True`, and 500 echoing the
message on any other exception. -/
def translate_text (g : TranslateGlobals) (req : TranslationRequest) (fs : FileSystem)
    (env : TranslateEnv) : Outcome TranslateGlobals TranslateResponse :=
  if g.translation_model = none ∨ g.translation_tokenizer = none then
    match load_translation_model g false env.loadEnv with
    | (.error e, g', tr) =>
      { result := .uncaught e, globals := g', fs := fs, trace := tr }
    | (.ok _, g', tr) => translateBody g' req fs env tr
  else
    translateBody g req fs env []

end Dubbing

/-! ## TTS service (src/python/services/tts.py) -/

namespace Dubbing

/-- Request body of `POST /tts` (`TTSRequest`), with the pydantic field
defaults. -/
structure TTSRequest where
  text : String
  reference_audio : String
  language : String := "uz"
  output_path : String
  emotion : String := "neutral"
deriving DecidableEq, Repr

/-- Module globals of `services/tts.py`. -/
structure TTSGlobals where
  tts_model : Option Nat
deriving DecidableEq, Repr

/-- Module-initial TTS globals (`tts_model = None`). -/
def TTSGlobals.init : TTSGlobals := ⟨none⟩

/-- Response body of a successful synthesis.  `duration` is
`len(audio)/sr`, a float carried opaquely. -/
structure TTSResponse where
  success : Bool
  output_path : String
  duration : Int
  text : String
  language : String
deriving DecidableEq, Repr

/-- Environment for one `generate_speech` call: the outcome of
`load_tts_model` (when attempted), of `tts_to_file` (whether it raised, and
whether it left the output file on disk), and of `sf.read` (the duration). -/
structure TTSEnv where
  loadOutcome : PyResult Nat
  ttsOutcome : PyResult Bool
  readOutcome : PyResult Int

/-- The body of `generate_speech` from the second `503` check on, threading
the trace accumulated so far. -/
def ttsBody (g : TTSGlobals) (req : TTSRequest) (fs : FileSystem) (env : TTSEnv)
    (tr : List Effect) : Outcome TTSGlobals TTSResponse :=
  if g.tts_model = none then
    { result := .httpError 503 "TTS model not loaded", globals := g, fs := fs, trace := tr }
  else if ¬ fs.existsPath req.reference_audio then
    { result := .httpError 400 ("Reference audio file not found: " ++ req.reference_audio),
      globals := g, fs := fs, trace := tr }
  else
    let fs₁ := makeOutputDir fs req.output_path
    let call : Effect := .ttsToFile req.text req.reference_audio req.language req.output_path
    match env.ttsOutcome with
    | .error e =>
      { result := .httpError 500 ("TTS generation failed: " ++ e),
        globals := g, fs := fs₁, trace := tr ++ [call] }
    | .ok created =>
      let fs₂ := if created then fs₁.create req.output_path else fs₁
      if fs₂.existsPath req.output_path then
        match env.readOutcome with
        | .ok duration =>
          { result := .ok { success := true, output_path := req.output_path,
                            duration := duration, text := req.text,
                            language := req.language },
            globals := g, fs := fs₂, trace := tr ++ [call] }
        | .error e =>
          { result := .httpError 500 ("TTS generation failed: " ++ e),
            globals := g, fs := fs₂, trace := tr ++ [call] }
      else
        { result := .httpError 500 "Failed to generate audio file",
          globals := g, fs := fs₂, trace := tr ++ [call] }

/-- `generate_speech(request)`: lazily load the model when `tts_model` is
`None`, mapping a load failure to a 503 whose detail embeds the exception
message; then validate the reference audio (400 if absent), create the
output directory, synthesize to `output_path`, and map exceptions to 500
echoing the message (or a fixed 500 when the output file is missing). -/
def generate_speech (g : TTSGlobals) (req : TTSRequest) (fs : FileSystem)
    (env : TTSEnv) : Outcome TTSGlobals TTSResponse :=
  if g.tts_model = none then
    match env.loadOutcome with
    | .error e =>
      { result := .httpError 503 ("TTS model not loaded. Error: " ++ e ++
          ". You may need to accept terms at https://huggingface.co/coqui/XTTS-v2"),
        globals := g, fs := fs, trace := [.loadModel "xtts_v2"] }
    | .ok m => ttsBody { tts_model := some m } req fs env [.loadModel "xtts_v2"]
  else
    ttsBody g req fs env []

end Dubbing

/-! ## Helper lemmas -/

namespace Dubbing

theorem existsPath_create_self (fs : FileSystem) (p : String) :
    (fs.create p).existsPath p = true := by
  simp [FileSystem.create, FileSystem.existsPath, List.contains]

theorem create_remove_cancel (fs : FileSystem) (p : String) :
    (fs.create p).remove p = fs := by
  simp [FileSystem.create, FileSystem.remove]

/-- Loading the translation model only produces `loadModel` effects, never an
inference effect. -/
theorem load_translation_trace_no_inference (g : TranslateGlobals) (fr : Bool)
    (env : NllbLoadEnv) :
    ∀ eff ∈ (load_translation_model g fr env).2.2, eff.isInference = false := by
  obtain ⟨tm, tt⟩ := g
  obtain ⟨tokO, modelO⟩ := env
  cases tm <;> cases tt <;> cases fr <;> cases tokO <;> cases modelO <;>
    simp [load_translation_model, Effect.isInference]

/-- Loading either leaves the globals unchanged or leaves a `loadModel`
record in the trace. -/
theorem load_translation_globals_or_trace (g : TranslateGlobals) (fr : Bool)
    (env : NllbLoadEnv) :
    (load_translation_model g fr env).2.1 = g ∨
    (load_translation_model g fr env).2.2 = [.loadModel "nllb-200-distilled-600M"] := by
  obtain ⟨tm, tt⟩ := g
  obtain ⟨tokO, modelO⟩ := env
  cases tm <;> cases tt <;> cases fr <;> cases tokO <;> cases modelO <;>
    simp [load_translation_model]

/-- The guarded body of `translate_text` preserves globals and filesystem and
only appends to the incoming trace. -/
theorem translateBody_frame (g : TranslateGlobals) (req : TranslationRequest)
    (fs : FileSystem) (env : TranslateEnv) (tr : List Effect) :
    (translateBody g req fs env tr).globals = g ∧
    (translateBody g req fs env tr).fs = fs ∧
    ∃ ex, (translateBody g req fs env tr).trace = tr ++ ex := by
  obtain ⟨tm, tt⟩ := g
  cases tm with
  | none => cases tt <;> exact ⟨rfl, rfl, [], by simp [translateBody]⟩
  | some m =>
    cases tt with
    | none => exact ⟨rfl, rfl, [], by simp [translateBody]⟩
    | some tok =>
      by_cases hh : tok.has_lang_code_to_id = false
      · refine ⟨?_, ?_, [], ?_⟩ <;> simp [translateBody, hh]
      · rcases htl : resolveTargetLang tok req.target_lang with _ | ⟨tid, tl⟩
        · refine ⟨?_, ?_, [], ?_⟩ <;> simp [translateBody, hh, htl]
        · rcases hsl : resolveSourceLang tok req.source_lang with _ | sl
          · refine ⟨?_, ?_, [], ?_⟩ <;> simp [translateBody, hh, htl, hsl]
          · rcases hgen : env.generateOutcome with e | t <;>
              exact ⟨by simp [translateBody, hh, htl, hsl, hgen],
                     by simp [translateBody, hh, htl, hsl, hgen],
                     [.nllbGenerate tid 200 5 true],
                     by simp [translateBody, hh, htl, hsl, hgen]⟩

end Dubbing

/-! ## Claim theorems -/

namespace Dubbing

/-- Claim C9: `load_lipsync_model` returns without ever assigning the
module-global `lipsync_model` that `sync_lips` checks, so starting from the
module-initial state — regardless of whether the Wav2Lip checkpoint file
exists on disk — the global is still `None` after loading and every lip-sync
request is answered with HTTP 503 and an empty call trace. -/
theorem C9_lipsync_global_never_set (g : LipsyncGlobals) (model_dir : String)
    (fs fs' : FileSystem) (cuda : Bool) (req : LipSyncRequest) (env : FfmpegEnv)
    (h : g.lipsync_model = none) :
    (load_lipsync_model g model_dir fs cuda).2.lipsync_model = none ∧
    (sync_lips (load_lipsync_model g model_dir fs cuda).2 req fs' env).result
      = .httpError 503 "Wav2Lip model not loaded. Please download the model first." ∧
    (sync_lips (load_lipsync_model g model_dir fs cuda).2 req fs' env).trace = [] := by
  have hm : (load_lipsync_model g model_dir fs cuda).2.lipsync_model = none := by
    by_cases hcp : fs.existsPath (joinPath model_dir "wav2lip_gan.pth") = true <;>
      simp [load_lipsync_model, hcp, h]
  exact ⟨hm, by simp [sync_lips, hm], by simp [sync_lips, hm]⟩

/-- Witness for C9: concrete startup where the checkpoint file exists, yet
the request (with both input files present) still gets 503. -/
theorem C9_lipsync_global_never_set_witness :
    (load_lipsync_model LipsyncGlobals.init "/models"
        ["/models/wav2lip_gan.pth"] false).2.lipsync_model = none ∧
    (sync_lips (load_lipsync_model LipsyncGlobals.init "/models"
          ["/models/wav2lip_gan.pth"] false).2
        ⟨"/video.mp4", "/audio.wav", "/out.mp4"⟩
        ["/video.mp4", "/audio.wav"] ⟨0, "", true⟩).result
      = .httpError 503 "Wav2Lip model not loaded. Please download the model first." ∧
    (sync_lips (load_lipsync_model LipsyncGlobals.init "/models"
          ["/models/wav2lip_gan.pth"] false).2
        ⟨"/video.mp4", "/audio.wav", "/out.mp4"⟩
        ["/video.mp4", "/audio.wav"] ⟨0, "", true⟩).trace = [] :=
  C9_lipsync_global_never_set LipsyncGlobals.init "/models"
    ["/models/wav2lip_gan.pth"] ["/video.mp4", "/audio.wav"] false
    ⟨"/video.mp4", "/audio.wav", "/out.mp4"⟩ ⟨0, "", true⟩ rfl

/-- Claim C4: past the model-loaded and file-existence checks, `sync_lips`
shells out to exactly one ffmpeg command that copies the video stream
(`-c:v copy`) and replaces the audio track (`-map 0:v:0 -map 1:a:0`), never
invokes the Wav2Lip model, and on ffmpeg success with the output file present
returns `success=true` with the requested output path. -/
theorem C4_lipsync_is_ffmpeg_stub (g : LipsyncGlobals) (req : LipSyncRequest)
    (fs : FileSystem) (env : FfmpegEnv) (b : Bool)
    (hm : g.lipsync_model = some b)
    (hv : fs.existsPath req.video_path = true)
    (ha : fs.existsPath req.audio_path = true)
    (hr : env.returncode = 0)
    (hc : env.createsOutput = true) :
    (sync_lips g req fs env).result
      = .ok (true, req.output_path,
          "Basic audio replacement applied. Full Wav2Lip requires additional setup.") ∧
    (sync_lips g req fs env).trace = [.ffmpegRun (ffmpegCmd req)] ∧
    ffmpegCmd req = ["ffmpeg", "-i", req.video_path, "-i", req.audio_path,
      "-c:v", "copy", "-c:a", "aac", "-map", "0:v:0", "-map", "1:a:0",
      "-shortest", "-y", req.output_path] ∧
    (∀ v a, Effect.wav2lipInfer v a ∉ (sync_lips g req fs env).trace) := by
  have hres : (sync_lips g req fs env).result
      = .ok (true, req.output_path,
          "Basic audio replacement applied. Full Wav2Lip requires additional setup.") ∧
      (sync_lips g req fs env).trace = [.ffmpegRun (ffmpegCmd req)] := by
    constructor <;>
      simp [sync_lips, hm, hv, ha, hr, hc, existsPath_create_self]
  refine ⟨hres.1, hres.2, rfl, ?_⟩
  intro v a
  rw [hres.2]
  simp

/-- Witness for C4 at a concrete loaded state and successful ffmpeg run. -/
theorem C4_lipsync_is_ffmpeg_stub_witness :
    (sync_lips ⟨some true, some "cpu"⟩ ⟨"/v.mp4", "/a.wav", "/out/s.mp4"⟩
        ["/v.mp4", "/a.wav"] ⟨0, "", true⟩).result
      = .ok (true, "/out/s.mp4",
          "Basic audio replacement applied. Full Wav2Lip requires additional setup.") ∧
    (sync_lips ⟨some true, some "cpu"⟩ ⟨"/v.mp4", "/a.wav", "/out/s.mp4"⟩
        ["/v.mp4", "/a.wav"] ⟨0, "", true⟩).trace
      = [.ffmpegRun (ffmpegCmd ⟨"/v.mp4", "/a.wav", "/out/s.mp4"⟩)] ∧
    ffmpegCmd ⟨"/v.mp4", "/a.wav", "/out/s.mp4"⟩
      = ["ffmpeg", "-i", "/v.mp4", "-i", "/a.wav", "-c:v", "copy", "-c:a", "aac",
         "-map", "0:v:0", "-map", "1:a:0", "-shortest", "-y", "/out/s.mp4"] ∧
    (∀ v a, Effect.wav2lipInfer v a ∉
      (sync_lips ⟨some true, some "cpu"⟩ ⟨"/v.mp4", "/a.wav", "/out/s.mp4"⟩
        ["/v.mp4", "/a.wav"] ⟨0, "", true⟩).trace) :=
  C4_lipsync_is_ffmpeg_stub ⟨some true, some "cpu"⟩ ⟨"/v.mp4", "/a.wav", "/out/s.mp4"⟩
    ["/v.mp4", "/a.wav"] ⟨0, "", true⟩ true rfl rfl rfl rfl rfl

/-- Claim C7: when both the translation model and tokenizer globals are
already loaded and `force_reload` is false, `load_translation_model` returns
the already-loaded model with the globals unchanged and no load call made. -/
theorem C7_load_translation_model_idempotent (m : Nat) (t : Tokenizer)
    (env : NllbLoadEnv) :
    load_translation_model ⟨some m, some t⟩ false env = (.ok m, ⟨some m, some t⟩, []) :=
  rfl

end Dubbing

namespace Dubbing

/-- Counterexample to C1 as stated: in the state the server actually reaches
(module-initial globals passed through `load_lipsync_model`, here with the
checkpoint file present on disk), a lip-sync request whose `video_path` does
not exist on disk is answered 503, not 400. -/
theorem C1_counterexample :
    (sync_lips (load_lipsync_model LipsyncGlobals.init "/models"
          ["/models/wav2lip_gan.pth"] false).2
        ⟨"/missing/video.mp4", "/missing/audio.wav", "/out/out.mp4"⟩
        ["/models/wav2lip_gan.pth"] ⟨0, "", true⟩).result
      = .httpError 503 "Wav2Lip model not loaded. Please download the model first." := by
  have hm : (load_lipsync_model LipsyncGlobals.init "/models"
      ["/models/wav2lip_gan.pth"] false).2.lipsync_model = none := by
    by_cases hcp : FileSystem.existsPath ["/models/wav2lip_gan.pth"]
        (joinPath "/models" "wav2lip_gan.pth") = true <;>
      simp [load_lipsync_model, LipsyncGlobals.init, hcp]
  simp [sync_lips, hm]

/-- Claim C1 (amended): provided the handler's model-availability check
passes — which for lip-sync never happens through `load_lipsync_model`, by
C9 — each missing/invalid input is rejected with HTTP 400 before any
external call: transcription with a falsy filename, TTS with a nonexistent
`reference_audio`, and lip-sync with a nonexistent `video_path` or
`audio_path`, each with an empty call trace. -/
theorem C1_amended_validation_yields_400
    (gt : TranscribeGlobals) (mw : Nat) (file : Upload) (fsT : FileSystem)
    (envT : TranscribeEnv)
    (gs : TTSGlobals) (ms : Nat) (reqS : TTSRequest) (fsS : FileSystem) (envS : TTSEnv)
    (gl : LipsyncGlobals) (b : Bool) (reqL : LipSyncRequest) (fsL : FileSystem)
    (envL : FfmpegEnv)
    (gl' : LipsyncGlobals) (b' : Bool) (reqL' : LipSyncRequest) (fsL' : FileSystem)
    (envL' : FfmpegEnv)
    (hw : gt.whisper_model = some mw) (hf : filenameFalsy file.filename = true)
    (hs : gs.tts_model = some ms) (hra : fsS.existsPath reqS.reference_audio = false)
    (hl : gl.lipsync_model = some b) (hv : fsL.existsPath reqL.video_path = false)
    (hl' : gl'.lipsync_model = some b') (hv' : fsL'.existsPath reqL'.video_path = true)
    (ha' : fsL'.existsPath reqL'.audio_path = false) :
    ((transcribe_audio gt file fsT envT).result = .httpError 400 "No filename provided" ∧
      (transcribe_audio gt file fsT envT).trace = []) ∧
    ((generate_speech gs reqS fsS envS).result
        = .httpError 400 ("Reference audio file not found: " ++ reqS.reference_audio) ∧
      (generate_speech gs reqS fsS envS).trace = []) ∧
    ((sync_lips gl reqL fsL envL).result
        = .httpError 400 ("Video file not found: " ++ reqL.video_path) ∧
      (sync_lips gl reqL fsL envL).trace = []) ∧
    ((sync_lips gl' reqL' fsL' envL').result
        = .httpError 400 ("Audio file not found: " ++ reqL'.audio_path) ∧
      (sync_lips gl' reqL' fsL' envL').trace = []) := by
  refine ⟨⟨?_, ?_⟩, ⟨?_, ?_⟩, ⟨?_, ?_⟩, ⟨?_, ?_⟩⟩ <;>
    simp [transcribe_audio, generate_speech, ttsBody, sync_lips,
      hw, hf, hs, hra, hl, hv, hl', hv', ha']

/-- Witness for the amended C1 at concrete loaded states and requests. -/
theorem C1_amended_validation_yields_400_witness :
    ((transcribe_audio ⟨some 1⟩ ⟨some ""⟩ [] ⟨"/tmp/t.wav", .ok ⟨[], none⟩, 0⟩).result
        = .httpError 400 "No filename provided" ∧
      (transcribe_audio ⟨some 1⟩ ⟨some ""⟩ [] ⟨"/tmp/t.wav", .ok ⟨[], none⟩, 0⟩).trace = []) ∧
    ((generate_speech ⟨some 1⟩ ⟨"hi", "/missing/ref.wav", "uz", "/out/g.wav", "neutral"⟩
          [] ⟨.ok 1, .ok true, .ok 0⟩).result
        = .httpError 400 ("Reference audio file not found: " ++ "/missing/ref.wav") ∧
      (generate_speech ⟨some 1⟩ ⟨"hi", "/missing/ref.wav", "uz", "/out/g.wav", "neutral"⟩
          [] ⟨.ok 1, .ok true, .ok 0⟩).trace = []) ∧
    ((sync_lips ⟨some true, none⟩ ⟨"/missing/v.mp4", "/a.wav", "/o.mp4"⟩
          ["/a.wav"] ⟨0, "", true⟩).result
        = .httpError 400 ("Video file not found: " ++ "/missing/v.mp4") ∧
      (sync_lips ⟨some true, none⟩ ⟨"/missing/v.mp4", "/a.wav", "/o.mp4"⟩
          ["/a.wav"] ⟨0, "", true⟩).trace = []) ∧
    ((sync_lips ⟨some true, none⟩ ⟨"/v.mp4", "/missing/a.wav", "/o.mp4"⟩
          ["/v.mp4"] ⟨0, "", true⟩).result
        = .httpError 400 ("Audio file not found: " ++ "/missing/a.wav") ∧
      (sync_lips ⟨some true, none⟩ ⟨"/v.mp4", "/missing/a.wav", "/o.mp4"⟩
          ["/v.mp4"] ⟨0, "", true⟩).trace = []) :=
  C1_amended_validation_yields_400 ⟨some 1⟩ 1 ⟨some ""⟩ [] ⟨"/tmp/t.wav", .ok ⟨[], none⟩, 0⟩
    ⟨some 1⟩ 1 ⟨"hi", "/missing/ref.wav", "uz", "/out/g.wav", "neutral"⟩ []
      ⟨.ok 1, .ok true, .ok 0⟩
    ⟨some true, none⟩ true ⟨"/missing/v.mp4", "/a.wav", "/o.mp4"⟩ ["/a.wav"] ⟨0, "", true⟩
    ⟨some true, none⟩ true ⟨"/v.mp4", "/missing/a.wav", "/o.mp4"⟩ ["/v.mp4"] ⟨0, "", true⟩
    rfl rfl rfl rfl rfl rfl rfl rfl rfl

/-- Counterexample to C2 as stated: on the translation endpoint with the
model not loaded and the lazy load failing, the handler does not produce a
503 — the load call at translate.py:97 is not wrapped in try/except, so the
exception escapes the handler uncaught (FastAPI then answers a generic 500). -/
theorem C2_counterexample :
    (translate_text TranslateGlobals.init { text := "hello" } []
        { loadEnv := ⟨.error "load failed", .error "load failed"⟩,
          generateOutcome := .ok "salom" }).result = .uncaught "load failed" := by
  rfl

/-- Claim C2 (amended): with the model not loaded (and the lazy load, where
attempted, failing), transcription, emotion and lip-sync answer 503 with no
external call; TTS answers 503 with the load error embedded and no inference
call; translation, whose lazy load is not guarded, instead lets the load
exception escape the handler uncaught (a framework 500), also with no
inference call. -/
theorem C2_amended_model_unavailable
    (gt : TranscribeGlobals) (file : Upload) (fsT : FileSystem) (envT : TranscribeEnv)
    (ge : EmotionGlobals) (reqE : EmotionRequest) (fsE : FileSystem)
    (outE : PyResult EmotionOut)
    (gl : LipsyncGlobals) (reqL : LipSyncRequest) (fsL : FileSystem) (envL : FfmpegEnv)
    (gs : TTSGlobals) (reqS : TTSRequest) (fsS : FileSystem) (envS : TTSEnv) (eS : String)
    (gx : TranslateGlobals) (reqX : TranslationRequest) (fsX : FileSystem)
    (envX : TranslateEnv) (eX : String)
    (hT : gt.whisper_model = none)
    (hE : ge.emotion_model = none ∨ ge.emotion_tokenizer = none)
    (hL : gl.lipsync_model = none)
    (hS : gs.tts_model = none) (hSload : envS.loadOutcome = .error eS)
    (hX : gx.translation_model = none ∨ gx.translation_tokenizer = none)
    (hXload : (load_translation_model gx false envX.loadEnv).1 = .error eX) :
    ((transcribe_audio gt file fsT envT).result = .httpError 503 "Whisper model not loaded" ∧
      (transcribe_audio gt file fsT envT).trace = []) ∧
    ((detect_emotion ge reqE fsE outE).result = .httpError 503 "Emotion model not loaded" ∧
      (detect_emotion ge reqE fsE outE).trace = []) ∧
    ((sync_lips gl reqL fsL envL).result
        = .httpError 503 "Wav2Lip model not loaded. Please download the model first." ∧
      (sync_lips gl reqL fsL envL).trace = []) ∧
    ((generate_speech gs reqS fsS envS).result
        = .httpError 503 ("TTS model not loaded. Error: " ++ eS ++
            ". You may need to accept terms at https://huggingface.co/coqui/XTTS-v2") ∧
      (∀ eff ∈ (generate_speech gs reqS fsS envS).trace, eff.isInference = false)) ∧
    ((translate_text gx reqX fsX envX).result = .uncaught eX ∧
      (∀ eff ∈ (translate_text gx reqX fsX envX).trace, eff.isInference = false)) := by
  refine ⟨⟨?_, ?_⟩, ⟨?_, ?_⟩, ⟨?_, ?_⟩, ⟨?_, ?_⟩, ?_⟩
  · simp [transcribe_audio, hT]
  · simp [transcribe_audio, hT]
  · simp [detect_emotion, hE]
  · simp [detect_emotion, hE]
  · simp [sync_lips, hL]
  · simp [sync_lips, hL]
  · simp [generate_speech, hS, hSload]
  · simp [generate_speech, hS, hSload, Effect.isInference]
  · have hno := load_translation_trace_no_inference gx false envX.loadEnv
    rcases h5 : load_translation_model gx false envX.loadEnv with ⟨r, g', tr⟩
    rw [h5] at hXload hno
    simp only at hXload
    subst hXload
    constructor
    · simp [translate_text, hX, h5]
    · intro eff heff
      apply hno
      have : (translate_text gx reqX fsX envX).trace = tr := by
        simp [translate_text, hX, h5]
      rw [this] at heff
      simpa using heff

/-- Witness for the amended C2 at concrete unloaded states with failing
lazy loads. -/
theorem C2_amended_model_unavailable_witness :
    ((transcribe_audio ⟨none⟩ ⟨some "a.wav"⟩ [] ⟨"/tmp/t.wav", .ok ⟨[], none⟩, 0⟩).result
        = .httpError 503 "Whisper model not loaded" ∧
      (transcribe_audio ⟨none⟩ ⟨some "a.wav"⟩ [] ⟨"/tmp/t.wav", .ok ⟨[], none⟩, 0⟩).trace = []) ∧
    ((detect_emotion ⟨none, none⟩ ⟨"hi"⟩ [] (.ok ⟨"joy", 9, []⟩)).result
        = .httpError 503 "Emotion model not loaded" ∧
      (detect_emotion ⟨none, none⟩ ⟨"hi"⟩ [] (.ok ⟨"joy", 9, []⟩)).trace = []) ∧
    ((sync_lips ⟨none, none⟩ ⟨"/v.mp4", "/a.wav", "/o.mp4"⟩ ["/v.mp4", "/a.wav"]
          ⟨0, "", true⟩).result
        = .httpError 503 "Wav2Lip model not loaded. Please download the model first." ∧
      (sync_lips ⟨none, none⟩ ⟨"/v.mp4", "/a.wav", "/o.mp4"⟩ ["/v.mp4", "/a.wav"]
          ⟨0, "", true⟩).trace = []) ∧
    ((generate_speech ⟨none⟩ ⟨"hi", "/ref.wav", "uz", "/o.wav", "neutral"⟩ ["/ref.wav"]
          ⟨.error "no terms", .ok true, .ok 0⟩).result
        = .httpError 503 ("TTS model not loaded. Error: " ++ "no terms" ++
            ". You may need to accept terms at https://huggingface.co/coqui/XTTS-v2") ∧
      (∀ eff ∈ (generate_speech ⟨none⟩ ⟨"hi", "/ref.wav", "uz", "/o.wav", "neutral"⟩
          ["/ref.wav"] ⟨.error "no terms", .ok true, .ok 0⟩).trace,
        eff.isInference = false)) ∧
    ((translate_text ⟨none, none⟩ { text := "hello" } []
          { loadEnv := ⟨.error "load failed", .error "load failed"⟩,
            generateOutcome := .ok "salom" }).result = .uncaught "load failed" ∧
      (∀ eff ∈ (translate_text ⟨none, none⟩ { text := "hello" } []
          { loadEnv := ⟨.error "load failed", .error "load failed"⟩,
            generateOutcome := .ok "salom" }).trace, eff.isInference = false)) :=
  C2_amended_model_unavailable ⟨none⟩ ⟨some "a.wav"⟩ [] ⟨"/tmp/t.wav", .ok ⟨[], none⟩, 0⟩
    ⟨none, none⟩ ⟨"hi"⟩ [] (.ok ⟨"joy", 9, []⟩)
    ⟨none, none⟩ ⟨"/v.mp4", "/a.wav", "/o.mp4"⟩ ["/v.mp4", "/a.wav"] ⟨0, "", true⟩
    ⟨none⟩ ⟨"hi", "/ref.wav", "uz", "/o.wav", "neutral"⟩ ["/ref.wav"]
      ⟨.error "no terms", .ok true, .ok 0⟩ "no terms"
    ⟨none, none⟩ { text := "hello" } []
      { loadEnv := ⟨.error "load failed", .error "load failed"⟩,
        generateOutcome := .ok "salom" } "load failed"
    rfl (Or.inl rfl) rfl rfl rfl (Or.inl rfl) rfl

end Dubbing

namespace Dubbing

/-- With the model loaded and the reference audio present, `ttsBody` always
records exactly one synthesis call carrying the request's text verbatim, and
never answers 400. -/
theorem ttsBody_past_validation (m : Nat) (g : TTSGlobals) (req : TTSRequest)
    (fs : FileSystem) (env : TTSEnv) (tr : List Effect)
    (hm : g.tts_model = some m) (href : fs.existsPath req.reference_audio = true) :
    (ttsBody g req fs env tr).trace
      = tr ++ [.ttsToFile req.text req.reference_audio req.language req.output_path] ∧
    ∀ d, (ttsBody g req fs env tr).result ≠ .httpError 400 d := by
  constructor
  · rcases hts : env.ttsOutcome with e | created
    · simp [ttsBody, hm, href, hts]
    · rcases hrd : env.readOutcome with e | dur <;>
        (simp [ttsBody, hm, href, hts, hrd]
         split <;> split <;> rfl)
  · intro d
    rcases hts : env.ttsOutcome with e | created
    · simp [ttsBody, hm, href, hts]
    · rcases hrd : env.readOutcome with e | dur <;>
        (simp [ttsBody, hm, href, hts, hrd]
         split <;> split <;> simp)

/-- Claim C3: a non-HTTP exception raised during the handler's inference
work (not a validation or model-unavailable failure) is mapped to HTTP 500
whose detail echoes the exception's message, on the transcription,
translation and emotion endpoints. -/
theorem C3_exception_maps_to_500_with_message
    (gt : TranscribeGlobals) (mw : Nat) (file : Upload) (fsT : FileSystem)
    (envT : TranscribeEnv) (eT : String)
    (m : Nat) (tok : Tokenizer) (reqX : TranslationRequest) (fsX : FileSystem)
    (envX : TranslateEnv) (tid : Nat) (tl sl : String) (eX : String)
    (me mte : Nat) (reqE : EmotionRequest) (fsE : FileSystem) (eE : String)
    (hw : gt.whisper_model = some mw) (hf : filenameFalsy file.filename = false)
    (hT : envT.transcribeOutcome = .error eT)
    (hhas : tok.has_lang_code_to_id = true)
    (htl : resolveTargetLang tok reqX.target_lang = some (tid, tl))
    (hsl : resolveSourceLang tok reqX.source_lang = some sl)
    (hgen : envX.generateOutcome = .error eX) :
    (transcribe_audio gt file fsT envT).result
      = .httpError 500 ("Transcription failed: " ++ eT) ∧
    (translate_text ⟨some m, some tok⟩ reqX fsX envX).result
      = .httpError 500 ("Translation failed: " ++ eX) ∧
    (detect_emotion ⟨some me, some mte⟩ reqE fsE (.error eE)).result
      = .httpError 500 ("Emotion detection failed: " ++ eE) := by
  refine ⟨?_, ?_, ?_⟩
  · simp [transcribe_audio, hw, hf, hT]
  · simp [translate_text, translateBody, hhas, htl, hsl, hgen]
  · simp [detect_emotion]

/-- Witness for C3 at concrete loaded states where the model call raises. -/
theorem C3_exception_maps_to_500_with_message_witness :
    (transcribe_audio ⟨some 1⟩ ⟨some "a.wav"⟩ [] ⟨"/tmp/t.wav", .error "decode error", 0⟩).result
      = .httpError 500 ("Transcription failed: " ++ "decode error") ∧
    (translate_text ⟨some 1, some ⟨true, [("eng_Latn", 256047), ("uzb_Latn", 256201)]⟩⟩
        ⟨"hello", "eng_Latn", "uzb_Latn", "neutral"⟩ []
        { loadEnv := ⟨.ok ⟨true, []⟩, .ok 1⟩, generateOutcome := .error "oom" }).result
      = .httpError 500 ("Translation failed: " ++ "oom") ∧
    (detect_emotion ⟨some 1, some 1⟩ ⟨"hi"⟩ [] (.error "cuda error")).result
      = .httpError 500 ("Emotion detection failed: " ++ "cuda error") :=
  C3_exception_maps_to_500_with_message ⟨some 1⟩ 1 ⟨some "a.wav"⟩ []
    ⟨"/tmp/t.wav", .error "decode error", 0⟩ "decode error"
    1 ⟨true, [("eng_Latn", 256047), ("uzb_Latn", 256201)]⟩
    ⟨"hello", "eng_Latn", "uzb_Latn", "neutral"⟩ []
    { loadEnv := ⟨.ok ⟨true, []⟩, .ok 1⟩, generateOutcome := .error "oom" }
    256201 "uzb_Latn" "eng_Latn" "oom"
    1 1 ⟨"hi"⟩ [] "cuda error"
    rfl rfl rfl rfl rfl rfl rfl

/-- Counterexample to C5 as stated: a request whose `text` is the empty
string is NOT rejected with 400 — the emotion handler (model loaded) passes
the empty text straight to the model and returns a 200 response. -/
theorem C5_counterexample :
    (detect_emotion ⟨some 1, some 1⟩ ⟨""⟩ []
        (.ok ⟨"neutral", 9741, [("neutral", 9741)]⟩)).result
      = .ok ⟨"neutral", 9741, [("neutral", 9741)], ""⟩ ∧
    (detect_emotion ⟨some 1, some 1⟩ ⟨""⟩ []
        (.ok ⟨"neutral", 9741, [("neutral", 9741)]⟩)).trace
      = [.emotionInfer ""] := ⟨rfl, rfl⟩

/-- Claim C5 (amended): no handler validates text non-emptiness.  With the
model loaded and the non-text checks passing, the empty text is passed to
the model verbatim on the emotion, translation and TTS endpoints, and the
response is never a 400 (field presence and typing are enforced by the web
framework's body parsing, which rejects with 422, not by the handlers). -/
theorem C5_amended_empty_text_reaches_model
    (me mte : Nat) (fsE : FileSystem) (outE : PyResult EmotionOut)
    (m : Nat) (tok : Tokenizer) (src tgt emo : String) (fsX : FileSystem)
    (envX : TranslateEnv) (tid : Nat) (tl sl : String)
    (gs : TTSGlobals) (ms : Nat) (ref lang out emotion : String) (fsS : FileSystem)
    (envS : TTSEnv)
    (hhas : tok.has_lang_code_to_id = true)
    (htl : resolveTargetLang tok tgt = some (tid, tl))
    (hsl : resolveSourceLang tok src = some sl)
    (hs : gs.tts_model = some ms)
    (href : fsS.existsPath ref = true) :
    ((detect_emotion ⟨some me, some mte⟩ ⟨""⟩ fsE outE).trace = [.emotionInfer ""] ∧
      ∀ d, (detect_emotion ⟨some me, some mte⟩ ⟨""⟩ fsE outE).result ≠ .httpError 400 d) ∧
    ((translate_text ⟨some m, some tok⟩ ⟨"", src, tgt, emo⟩ fsX envX).trace
        = [.nllbGenerate tid 200 5 true] ∧
      ∀ d, (translate_text ⟨some m, some tok⟩ ⟨"", src, tgt, emo⟩ fsX envX).result
        ≠ .httpError 400 d) ∧
    ((generate_speech gs ⟨"", ref, lang, out, emotion⟩ fsS envS).trace
        = [.ttsToFile "" ref lang out] ∧
      ∀ d, (generate_speech gs ⟨"", ref, lang, out, emotion⟩ fsS envS).result
        ≠ .httpError 400 d) := by
  refine ⟨⟨?_, ?_⟩, ⟨?_, ?_⟩, ?_⟩
  · rcases outE with e | o <;> simp [detect_emotion]
  · rcases outE with e | o <;> simp [detect_emotion]
  · rcases hgen : envX.generateOutcome with e | t <;>
      simp [translate_text, translateBody, hhas, htl, hsl, hgen]
  · rcases hgen : envX.generateOutcome with e | t <;>
      simp [translate_text, translateBody, hhas, htl, hsl, hgen]
  · have h := ttsBody_past_validation ms gs ⟨"", ref, lang, out, emotion⟩ fsS envS [] hs href
    constructor
    · have := h.1
      simpa [generate_speech, hs] using this
    · intro d
      have := h.2 d
      simpa [generate_speech, hs] using this

/-- Witness for the amended C5 at concrete loaded states and empty text. -/
theorem C5_amended_empty_text_reaches_model_witness :
    ((detect_emotion ⟨some 1, some 1⟩ ⟨""⟩ [] (.ok ⟨"neutral", 9741, []⟩)).trace
        = [.emotionInfer ""] ∧
      ∀ d, (detect_emotion ⟨some 1, some 1⟩ ⟨""⟩ []
        (.ok ⟨"neutral", 9741, []⟩)).result ≠ .httpError 400 d) ∧
    ((translate_text ⟨some 1, some ⟨true, [("eng_Latn", 256047), ("uzb_Latn", 256201)]⟩⟩
          ⟨"", "eng_Latn", "uzb_Latn", "neutral"⟩ []
          { loadEnv := ⟨.ok ⟨true, []⟩, .ok 1⟩, generateOutcome := .ok "" }).trace
        = [.nllbGenerate 256201 200 5 true] ∧
      ∀ d, (translate_text ⟨some 1, some ⟨true, [("eng_Latn", 256047), ("uzb_Latn", 256201)]⟩⟩
          ⟨"", "eng_Latn", "uzb_Latn", "neutral"⟩ []
          { loadEnv := ⟨.ok ⟨true, []⟩, .ok 1⟩, generateOutcome := .ok "" }).result
        ≠ .httpError 400 d) ∧
    ((generate_speech ⟨some 1⟩ ⟨"", "/ref.wav", "uz", "/out/g.wav", "neutral"⟩
          ["/ref.wav"] ⟨.ok 1, .ok true, .ok 0⟩).trace
        = [.ttsToFile "" "/ref.wav" "uz" "/out/g.wav"] ∧
      ∀ d, (generate_speech ⟨some 1⟩ ⟨"", "/ref.wav", "uz", "/out/g.wav", "neutral"⟩
          ["/ref.wav"] ⟨.ok 1, .ok true, .ok 0⟩).result ≠ .httpError 400 d) :=
  C5_amended_empty_text_reaches_model 1 1 [] (.ok ⟨"neutral", 9741, []⟩)
    1 ⟨true, [("eng_Latn", 256047), ("uzb_Latn", 256201)]⟩ "eng_Latn" "uzb_Latn" "neutral"
    [] { loadEnv := ⟨.ok ⟨true, []⟩, .ok 1⟩, generateOutcome := .ok "" }
    256201 "uzb_Latn" "eng_Latn"
    ⟨some 1⟩ 1 "/ref.wav" "uz" "/out/g.wav" "neutral" ["/ref.wav"] ⟨.ok 1, .ok true, .ok 0⟩
    rfl rfl rfl rfl rfl

end Dubbing

namespace Dubbing

/-- Counterexample to C6 as stated: a successful TTS request mutates the
filesystem beyond model loading — the generated audio file (and its parent
directory) exist after the response and are observable by later requests,
while neither existed before. -/
theorem C6_counterexample :
    (generate_speech ⟨some 1⟩
        { text := "hello", reference_audio := "/ref.wav", output_path := "/out/gen.wav" }
        ["/ref.wav"] ⟨.ok 1, .ok true, .ok 42⟩).result
      = .ok ⟨true, "/out/gen.wav", 42, "hello", "uz"⟩ ∧
    (generate_speech ⟨some 1⟩
        { text := "hello", reference_audio := "/ref.wav", output_path := "/out/gen.wav" }
        ["/ref.wav"] ⟨.ok 1, .ok true, .ok 42⟩).fs
      = ["/out/gen.wav", "/out", "/ref.wav"] ∧
    FileSystem.existsPath ["/ref.wav"] "/out/gen.wav" = false :=
  ⟨rfl, rfl, rfl⟩

/-- Claim C6 (amended): requests mutate module globals only through model
loading, and request handling leaves the filesystem unchanged except for the
explicitly requested output artifacts: emotion detection and translation
never touch the filesystem, transcription removes its temporary file before
returning, and a successful TTS synthesis persists exactly the requested
output file plus (if needed) its parent directory. -/
theorem C6_amended_frame_effects
    (ge : EmotionGlobals) (reqE : EmotionRequest) (fsE : FileSystem)
    (outE : PyResult EmotionOut)
    (gx : TranslateGlobals) (reqX : TranslationRequest) (fsX : FileSystem)
    (envX : TranslateEnv)
    (gt : TranscribeGlobals) (mw : Nat) (file : Upload) (fsT : FileSystem)
    (envT : TranscribeEnv)
    (gs : TTSGlobals) (ms : Nat) (reqS : TTSRequest) (fsS : FileSystem) (envS : TTSEnv)
    (hw : gt.whisper_model = some mw) (hf : filenameFalsy file.filename = false)
    (htmp : fsT.existsPath envT.temp_path = false)
    (hs : gs.tts_model = some ms) (href : fsS.existsPath reqS.reference_audio = true)
    (hcreated : envS.ttsOutcome = .ok true) :
    ((detect_emotion ge reqE fsE outE).globals = ge ∧
      (detect_emotion ge reqE fsE outE).fs = fsE) ∧
    ((translate_text gx reqX fsX envX).fs = fsX ∧
      ((translate_text gx reqX fsX envX).globals ≠ gx →
        Effect.loadModel "nllb-200-distilled-600M" ∈ (translate_text gx reqX fsX envX).trace)) ∧
    ((transcribe_audio gt file fsT envT).fs = fsT ∧
      (transcribe_audio gt file fsT envT).globals = gt) ∧
    (generate_speech gs reqS fsS envS).fs
      = (makeOutputDir fsS reqS.output_path).create reqS.output_path := by
  refine ⟨⟨?_, ?_⟩, ⟨?_, ?_⟩, ⟨?_, ?_⟩, ?_⟩
  · by_cases hE : (ge.emotion_model = none ∨ ge.emotion_tokenizer = none)
    · simp [detect_emotion, hE]
    · rcases outE with e | o <;> simp [detect_emotion, hE]
  · by_cases hE : (ge.emotion_model = none ∨ ge.emotion_tokenizer = none)
    · simp [detect_emotion, hE]
    · rcases outE with e | o <;> simp [detect_emotion, hE]
  · by_cases hcond : gx.translation_model = none ∨ gx.translation_tokenizer = none
    · rcases h5 : load_translation_model gx false envX.loadEnv with ⟨r, g', tr⟩
      rcases r with e | mm
      · simp [translate_text, hcond, h5]
      · have hfs := (translateBody_frame g' reqX fsX envX tr).2.1
        simp [translate_text, hcond, h5, hfs]
    · have hfs := (translateBody_frame gx reqX fsX envX []).2.1
      simp [translate_text, hcond, hfs]
  · intro hne
    by_cases hcond : gx.translation_model = none ∨ gx.translation_tokenizer = none
    · rcases h5 : load_translation_model gx false envX.loadEnv with ⟨r, g', tr⟩
      rcases load_translation_globals_or_trace gx false envX.loadEnv with hsame | htr
      · rw [h5] at hsame
        simp only at hsame
        rw [hsame] at h5
        rcases r with e | mm
        · exact absurd (by simp [translate_text, hcond, h5]) hne
        · have hg := (translateBody_frame gx reqX fsX envX tr).1
          exact absurd (by simp [translate_text, hcond, h5, hg]) hne
      · rw [h5] at htr
        simp only at htr
        rcases r with e | mm
        · have hteq : (translate_text gx reqX fsX envX).trace = tr := by
            simp [translate_text, hcond, h5]
          rw [hteq, htr]
          simp
        · obtain ⟨ex, hex⟩ := (translateBody_frame g' reqX fsX envX tr).2.2
          have hteq : (translate_text gx reqX fsX envX).trace = tr ++ ex := by
            simp [translate_text, hcond, h5, hex]
          rw [hteq, htr]
          simp
    · have hg := (translateBody_frame gx reqX fsX envX []).1
      exact absurd (by simp [translate_text, hcond, hg]) hne
  · rcases ht : envT.transcribeOutcome with e | r <;>
      simp [transcribe_audio, hw, hf, ht, existsPath_create_self, create_remove_cancel]
  · rcases ht : envT.transcribeOutcome with e | r <;>
      simp [transcribe_audio, hw, hf, ht]
  · rcases hrd : envS.readOutcome with e | dur <;>
      simp [generate_speech, ttsBody, hs, href, hcreated, hrd, existsPath_create_self]

/-- Witness for the amended C6 at concrete states: an emotion request, a
translation request on loaded globals, a transcription whose temp file is
fresh, and a successful TTS synthesis. -/
theorem C6_amended_frame_effects_witness :
    ((detect_emotion ⟨some 1, some 1⟩ ⟨"hi"⟩ ["/x"] (.ok ⟨"joy", 9, []⟩)).globals
        = ⟨some 1, some 1⟩ ∧
      (detect_emotion ⟨some 1, some 1⟩ ⟨"hi"⟩ ["/x"] (.ok ⟨"joy", 9, []⟩)).fs = ["/x"]) ∧
    ((translate_text ⟨some 1, some ⟨true, [("uzb_Latn", 7)]⟩⟩ { text := "hi" } ["/x"]
          { loadEnv := ⟨.ok ⟨true, []⟩, .ok 1⟩, generateOutcome := .ok "salom" }).fs
        = ["/x"] ∧
      ((translate_text ⟨some 1, some ⟨true, [("uzb_Latn", 7)]⟩⟩ { text := "hi" } ["/x"]
          { loadEnv := ⟨.ok ⟨true, []⟩, .ok 1⟩, generateOutcome := .ok "salom" }).globals
          ≠ ⟨some 1, some ⟨true, [("uzb_Latn", 7)]⟩⟩ →
        Effect.loadModel "nllb-200-distilled-600M"
          ∈ (translate_text ⟨some 1, some ⟨true, [("uzb_Latn", 7)]⟩⟩ { text := "hi" } ["/x"]
              { loadEnv := ⟨.ok ⟨true, []⟩, .ok 1⟩, generateOutcome := .ok "salom" }).trace)) ∧
    ((transcribe_audio ⟨some 1⟩ ⟨some "a.wav"⟩ ["/a.wav"]
          ⟨"/tmp/t.wav", .error "boom", 0⟩).fs = ["/a.wav"] ∧
      (transcribe_audio ⟨some 1⟩ ⟨some "a.wav"⟩ ["/a.wav"]
          ⟨"/tmp/t.wav", .error "boom", 0⟩).globals = ⟨some 1⟩) ∧
    (generate_speech ⟨some 1⟩ ⟨"hello", "/ref.wav", "uz", "/out/gen.wav", "neutral"⟩
          ["/ref.wav"] ⟨.ok 1, .ok true, .ok 42⟩).fs
      = (makeOutputDir ["/ref.wav"] "/out/gen.wav").create "/out/gen.wav" :=
  C6_amended_frame_effects ⟨some 1, some 1⟩ ⟨"hi"⟩ ["/x"] (.ok ⟨"joy", 9, []⟩)
    ⟨some 1, some ⟨true, [("uzb_Latn", 7)]⟩⟩ { text := "hi" } ["/x"]
      { loadEnv := ⟨.ok ⟨true, []⟩, .ok 1⟩, generateOutcome := .ok "salom" }
    ⟨some 1⟩ 1 ⟨some "a.wav"⟩ ["/a.wav"] ⟨"/tmp/t.wav", .error "boom", 0⟩
    ⟨some 1⟩ 1 ⟨"hello", "/ref.wav", "uz", "/out/gen.wav", "neutral"⟩ ["/ref.wav"]
      ⟨.ok 1, .ok true, .ok 42⟩
    rfl rfl rfl rfl rfl rfl

/-- Claim C8: every model invocation the handlers make uses the fixed
inference parameters: translation calls `generate` with
`forced_bos_token_id` equal to the resolved target-language token,
`max_length=200`, `num_beams=5`, `early_stopping=True`; transcription calls
the speech model with `language="en"`, `word_timestamps=True`,
`task="transcribe"`. -/
theorem C8_fixed_inference_parameters
    (m : Nat) (tok : Tokenizer) (reqX : TranslationRequest) (fsX : FileSystem)
    (envX : TranslateEnv) (tid : Nat) (tl sl : String)
    (gt : TranscribeGlobals) (mw : Nat) (file : Upload) (fsT : FileSystem)
    (envT : TranscribeEnv)
    (hhas : tok.has_lang_code_to_id = true)
    (htl : resolveTargetLang tok reqX.target_lang = some (tid, tl))
    (hsl : resolveSourceLang tok reqX.source_lang = some sl)
    (hw : gt.whisper_model = some mw) (hf : filenameFalsy file.filename = false) :
    (translate_text ⟨some m, some tok⟩ reqX fsX envX).trace
      = [.nllbGenerate tid 200 5 true] ∧
    (transcribe_audio gt file fsT envT).trace
      = [.whisperTranscribe envT.temp_path "en" true "transcribe"] := by
  constructor
  · rcases hgen : envX.generateOutcome with e | t <;>
      simp [translate_text, translateBody, hhas, htl, hsl, hgen]
  · rcases ht : envT.transcribeOutcome with e | r <;>
      simp [transcribe_audio, hw, hf, ht]

/-- Witness for C8 at a concrete loaded state: one translation and one
transcription, each making exactly its fixed-parameter model call. -/
theorem C8_fixed_inference_parameters_witness :
    (translate_text ⟨some 1, some ⟨true, [("eng_Latn", 256047), ("uzb_Latn", 256201)]⟩⟩
        ⟨"hello world", "eng_Latn", "uzb_Latn", "neutral"⟩ []
        { loadEnv := ⟨.ok ⟨true, []⟩, .ok 1⟩, generateOutcome := .ok "salom dunyo" }).trace
      = [.nllbGenerate 256201 200 5 true] ∧
    (transcribe_audio ⟨some 1⟩ ⟨some "clip.mp3"⟩ []
        ⟨"/tmp/u.mp3", .ok ⟨[⟨0, 210, " hello ", some [⟨"hello", 0, 210⟩]⟩], some "en"⟩, 4⟩).trace
      = [.whisperTranscribe "/tmp/u.mp3" "en" true "transcribe"] :=
  C8_fixed_inference_parameters 1 ⟨true, [("eng_Latn", 256047), ("uzb_Latn", 256201)]⟩
    ⟨"hello world", "eng_Latn", "uzb_Latn", "neutral"⟩ []
    { loadEnv := ⟨.ok ⟨true, []⟩, .ok 1⟩, generateOutcome := .ok "salom dunyo" }
    256201 "uzb_Latn" "eng_Latn"
    ⟨some 1⟩ 1 ⟨some "clip.mp3"⟩ []
    ⟨"/tmp/u.mp3", .ok ⟨[⟨0, 210, " hello ", some [⟨"hello", 0, 210⟩]⟩], some "en"⟩, 4⟩
    rfl rfl rfl rfl rfl

/-- Claim C10: once a transcription request passes validation, the handler
creates the temporary file and the `finally` block deletes it again before
the response is returned — the final filesystem equals the initial one and
the temp file is gone — whether the model call succeeded or raised. -/
theorem C10_temp_file_always_removed
    (gt : TranscribeGlobals) (mw : Nat) (file : Upload) (fs : FileSystem)
    (env : TranscribeEnv)
    (hw : gt.whisper_model = some mw) (hf : filenameFalsy file.filename = false)
    (htmp : fs.existsPath env.temp_path = false) :
    (transcribe_audio gt file fs env).fs = fs ∧
    (transcribe_audio gt file fs env).fs.existsPath env.temp_path = false := by
  have h1 : (transcribe_audio gt file fs env).fs = fs := by
    rcases ht : env.transcribeOutcome with e | r <;>
      simp [transcribe_audio, hw, hf, ht, existsPath_create_self, create_remove_cancel]
  exact ⟨h1, by rw [h1]; exact htmp⟩

/-- Witness for C10 on the failure path (model call raises): the temp file
is still removed before the 500 response. -/
theorem C10_temp_file_always_removed_witness :
    (transcribe_audio ⟨some 1⟩ ⟨some "a.wav"⟩ ["/a.wav"]
        ⟨"/tmp/t.wav", .error "boom", 0⟩).fs = ["/a.wav"] ∧
    (transcribe_audio ⟨some 1⟩ ⟨some "a.wav"⟩ ["/a.wav"]
        ⟨"/tmp/t.wav", .error "boom", 0⟩).fs.existsPath "/tmp/t.wav" = false :=
  C10_temp_file_always_removed ⟨some 1⟩ 1 ⟨some "a.wav"⟩ ["/a.wav"]
    ⟨"/tmp/t.wav", .error "boom", 0⟩ rfl rfl rfl

end Dubbing
